import Mathlib

/-!
Shallow embedding of the token-acquisition orchestrator of kubelogin:
`GetToken.Do` in pkg/usecases/credentialplugin/get_token.go, and the
configuration-mode orchestrator `Standalone.Do` (whose source file is not
in the snapshot; it is modelled from the spec and its test file).

Go errors are modelled as a tree of wrapped messages (`xerrors.Errorf`
with `%w` adds one `wrap` layer).  Each collaborator interface method is a
field of the receiver structure, returning `Except GoError`; an invocation
of `Do` returns its result together with the list of collaborator calls it
performed, in order (the trace), so that "X is called", "X is never
called" and "X happens before Y" become statements about that list.
-/

/-- A Go error value: either a base error or an error wrapped with a
message via `xerrors.Errorf("msg: %w", err)`. -/
inductive GoError where
  | base (msg : String)
  | wrap (msg : String) (err : GoError)
deriving DecidableEq, Repr

/-- `true` exactly when the error carries at least one wrapping message. -/
def GoError.isWrapped : GoError → Bool
  | .wrap _ _ => true
  | .base _ => false

/-- The error of a failed `Except`, if any. -/
def returnedError : Except GoError Unit → Option GoError
  | .error e => some e
  | .ok _ => none

/-- mutex.Lock: the opaque handle returned by Mutex.Acquire. -/
structure Lock where
  Data : String
deriving DecidableEq, Repr

/-- oidc.TokenSet: ID token and refresh token. -/
structure TokenSet where
  IDToken : String
  RefreshToken : String
deriving DecidableEq, Repr

/-- The decoded claims of an ID token (DecodeWithoutVerify result):
expiry timestamp and a human-readable summary. -/
structure Claims where
  Expiry : Int
  Pretty : String
deriving DecidableEq, Repr

/-- ropc.Option: options of the resource-owner-password grant. -/
structure RopcOption where
  Username : String
deriving DecidableEq, Repr

/-- authentication.GrantOptionSet.  Only the ROPC option is inspected by
the orchestrator (for the cache key Username); the other strategy options
are opaque to it and omitted here. -/
structure GrantOptionSet where
  ROPCOption : Option RopcOption
deriving DecidableEq, Repr

/-- tlsclientconfig.Config. -/
structure Config where
  CACertFilename : List String
  CACertData : List String
  SkipTLSVerify : Bool
deriving DecidableEq, Repr

/-- credentialplugin.Input: the input DTO of the GetToken use-case. -/
structure Input where
  IssuerURL : String
  ClientID : String
  ClientSecret : String
  ExtraScopes : List String
  TokenCacheDir : String
  GrantOptionSet : GrantOptionSet
  TLSClientConfig : Config
deriving DecidableEq, Repr

/-- tokencache.Key: the token cache key derived in GetToken.Do. -/
structure Key where
  IssuerURL : String
  ClientID : String
  ClientSecret : String
  Username : String
  ExtraScopes : List String
  CACertFilename : String
  CACertData : String
  SkipTLSVerify : Bool
deriving DecidableEq, Repr

/-- oidc.Provider. -/
structure Provider where
  IssuerURL : String
  ClientID : String
  ClientSecret : String
  ExtraScopes : List String
deriving DecidableEq, Repr

/-- authentication.Input. -/
structure AuthInput where
  Provider : Provider
  GrantOptionSet : GrantOptionSet
  CachedTokenSet : Option TokenSet
  TLSClientConfig : Config
deriving DecidableEq, Repr

/-- authentication.Output. -/
structure AuthOutput where
  AlreadyHasValidIDToken : Bool
  TokenSet : TokenSet
deriving DecidableEq, Repr

/-- credentialpluginwriter.Output. -/
structure WriterOutput where
  Token : String
  Expiry : Int
deriving DecidableEq, Repr

/-- One collaborator call made by GetToken.Do, with its arguments. -/
inductive Event where
  | acquire (name : String)
  | findByKey (dir : String) (key : Key)
  | authenticate (input : AuthInput)
  | decodeToken (ts : TokenSet)
  | save (dir : String) (key : Key) (ts : TokenSet)
  | write (out : WriterOutput)
  | release (lock : Lock)
deriving DecidableEq, Repr

/-- The GetToken receiver: each collaborator interface method becomes an
oracle returning `Except GoError`.  TokenCacheRepository contributes its
two methods; DecodeWithoutVerify is the black-box token decoder of the
oidc package (spec section 6). -/
structure GetToken where
  Authentication : AuthInput → Except GoError AuthOutput
  TokenCacheRepositoryFindByKey : String → Key → Except GoError TokenSet
  TokenCacheRepositorySave : String → Key → TokenSet → Except GoError Unit
  Writer : WriterOutput → Except GoError Unit
  MutexAcquire : String → Except GoError Lock
  MutexRelease : Lock → Except GoError Unit
  DecodeWithoutVerify : TokenSet → Except GoError Claims

/-- The token cache key built at get_token.go lines 65-76:
list fields of the TLS config are joined with ","
(strings.Join) and the Username is set only when the ROPC option is
present. -/
def deriveKey (i : Input) : Key :=
  let base : Key :=
    { IssuerURL := i.IssuerURL
      ClientID := i.ClientID
      ClientSecret := i.ClientSecret
      Username := ""
      ExtraScopes := i.ExtraScopes
      CACertFilename := String.intercalate "," i.TLSClientConfig.CACertFilename
      CACertData := String.intercalate "," i.TLSClientConfig.CACertData
      SkipTLSVerify := i.TLSClientConfig.SkipTLSVerify }
  match i.GrantOptionSet.ROPCOption with
  | some o => { base with Username := o.Username }
  | none => base

/-- The cached token set passed to the delegate: the FindByKey result on
success, and nothing when the lookup failed (get_token.go lines 77-80,
a lookup error is only logged). -/
def cachedOf (u : GetToken) (i : Input) : Option TokenSet :=
  match u.TokenCacheRepositoryFindByKey i.TokenCacheDir (deriveKey i) with
  | .ok ts => some ts
  | .error _ => none

/-- The authentication.Input built at get_token.go lines 82-92. -/
def authInputOf (u : GetToken) (i : Input) : AuthInput :=
  { Provider :=
      { IssuerURL := i.IssuerURL
        ClientID := i.ClientID
        ClientSecret := i.ClientSecret
        ExtraScopes := i.ExtraScopes }
    GrantOptionSet := i.GrantOptionSet
    CachedTokenSet := cachedOf u i
    TLSClientConfig := i.TLSClientConfig }

/-- GetToken.Do (get_token.go lines 52-120), returning the Go result and
the trace of collaborator calls.  The deferred Mutex.Release is inlined
at every exit point past a successful acquisition (its result is
discarded, as in `_ = u.Mutex.Release(lock)`); the branches spell out
their full traces. -/
def GetToken.Do (u : GetToken) (i : Input) : Except GoError Unit × List Event :=
  match u.MutexAcquire "get-token" with
  | .error e => (.error e, [.acquire "get-token"])
  | .ok lock =>
    let key := deriveKey i
    let ai := authInputOf u i
    match u.Authentication ai with
    | .error e =>
        (.error (.wrap "authentication error" e),
         [.acquire "get-token", .findByKey i.TokenCacheDir key,
          .authenticate ai, .release lock])
    | .ok authenticationOutput =>
      match u.DecodeWithoutVerify authenticationOutput.TokenSet with
      | .error e =>
          (.error (.wrap "you got an invalid token" e),
           [.acquire "get-token", .findByKey i.TokenCacheDir key,
            .authenticate ai, .decodeToken authenticationOutput.TokenSet,
            .release lock])
      | .ok idTokenClaims =>
        let out : WriterOutput :=
          { Token := authenticationOutput.TokenSet.IDToken
            Expiry := idTokenClaims.Expiry }
        if authenticationOutput.AlreadyHasValidIDToken then
          match u.Writer out with
          | .error e =>
              (.error (.wrap "could not write the token to client-go" e),
               [.acquire "get-token", .findByKey i.TokenCacheDir key,
                .authenticate ai, .decodeToken authenticationOutput.TokenSet,
                .write out, .release lock])
          | .ok _ =>
              (.ok (),
               [.acquire "get-token", .findByKey i.TokenCacheDir key,
                .authenticate ai, .decodeToken authenticationOutput.TokenSet,
                .write out, .release lock])
        else
          match u.TokenCacheRepositorySave i.TokenCacheDir key
              authenticationOutput.TokenSet with
          | .error e =>
              (.error (.wrap "could not write the token cache" e),
               [.acquire "get-token", .findByKey i.TokenCacheDir key,
                .authenticate ai, .decodeToken authenticationOutput.TokenSet,
                .save i.TokenCacheDir key authenticationOutput.TokenSet,
                .release lock])
          | .ok _ =>
            match u.Writer out with
            | .error e =>
                (.error (.wrap "could not write the token to client-go" e),
                 [.acquire "get-token", .findByKey i.TokenCacheDir key,
                  .authenticate ai, .decodeToken authenticationOutput.TokenSet,
                  .save i.TokenCacheDir key authenticationOutput.TokenSet,
                  .write out, .release lock])
            | .ok _ =>
                (.ok (),
                 [.acquire "get-token", .findByKey i.TokenCacheDir key,
                  .authenticate ai, .decodeToken authenticationOutput.TokenSet,
                  .save i.TokenCacheDir key authenticationOutput.TokenSet,
                  .write out, .release lock])

/-- Whether an event is a TokenCacheRepository.Save call. -/
def Event.isSave : Event → Bool
  | .save _ _ _ => true
  | _ => false

/-- Whether an event is a Writer.Write call. -/
def Event.isWrite : Event → Bool
  | .write _ => true
  | _ => false

/-- Whether an event is a DecodeWithoutVerify call. -/
def Event.isDecode : Event → Bool
  | .decodeToken _ => true
  | _ => false

/-- The Save calls of a trace. -/
def saveCalls (tr : List Event) : List Event := tr.filter Event.isSave

/-- The Write calls of a trace. -/
def writeCalls (tr : List Event) : List Event := tr.filter Event.isWrite

/-- kubeconfig.AuthProvider: the persisted provider entry of the
configuration mode (fields as used by standalone_test.go). -/
structure AuthProvider where
  LocationOfOrigin : String
  UserName : String
  IDPIssuerURL : String
  ClientID : String
  ClientSecret : String
  IDPCertificateAuthority : String
  IDPCertificateAuthorityData : String
  IDToken : String
  RefreshToken : String
deriving DecidableEq, Repr

/-- standalone.Input (fields as used by standalone_test.go). -/
structure StandaloneInput where
  KubeconfigFilename : String
  KubeconfigContext : String
  KubeconfigUser : String
  GrantOptionSet : GrantOptionSet
deriving DecidableEq, Repr

/-- One collaborator call made by Standalone.Do. -/
inductive StandaloneEvent where
  | getCurrentAuthProvider (filename ctx user : String)
  | authenticate (input : AuthInput)
  | updateAuthProvider (p : AuthProvider)
deriving DecidableEq, Repr

/-- The Standalone receiver: the Kubeconfig store and the Authentication
delegate, as oracles. -/
structure Standalone where
  Authentication : AuthInput → Except GoError AuthOutput
  KubeconfigGetCurrentAuthProvider :
    String → String → String → Except GoError AuthProvider
  KubeconfigUpdateAuthProvider : AuthProvider → Except GoError Unit

/-- Modelled from the spec: the authentication.Input that Standalone.Do
builds from the persisted provider entry (spec section 4.3: provider
identity and TLS configuration come from the entry's fields; the entry's
ID token, when present, is the reuse candidate), matching the
expectations of standalone_test.go. -/
def standaloneAuthInput (i : StandaloneInput) (p : AuthProvider) : AuthInput :=
  { Provider :=
      { IssuerURL := p.IDPIssuerURL
        ClientID := p.ClientID
        ClientSecret := p.ClientSecret
        ExtraScopes := [] }
    GrantOptionSet := i.GrantOptionSet
    CachedTokenSet :=
      if p.IDToken = "" then none else some { IDToken := p.IDToken, RefreshToken := "" }
    TLSClientConfig :=
      { CACertFilename :=
          if p.IDPCertificateAuthority = "" then [] else [p.IDPCertificateAuthority]
        CACertData :=
          if p.IDPCertificateAuthorityData = "" then []
          else [p.IDPCertificateAuthorityData]
        SkipTLSVerify := false } }

/-- Modelled from the spec: Standalone.Do, the configuration-mode
orchestrator of section 4.3, whose source file is not in the snapshot.
Read the current provider entry (a read failure is fatal and surfaced
immediately, nothing else runs); invoke the Authentication delegate with
the entry's token as reuse candidate (a failure is fatal, wrapped as an
authentication error); when a fresh token was obtained, update the
entry's token fields in memory and write the entry back (a write failure
is fatal); when the token was reused, do not write the entry back.
Behaviour cross-checked against standalone_test.go. -/
def Standalone.Do (u : Standalone) (i : StandaloneInput) :
    Except GoError Unit × List StandaloneEvent :=
  match u.KubeconfigGetCurrentAuthProvider i.KubeconfigFilename
      i.KubeconfigContext i.KubeconfigUser with
  | .error e =>
      (.error (.wrap "could not find the current authentication provider" e),
       [.getCurrentAuthProvider i.KubeconfigFilename i.KubeconfigContext
          i.KubeconfigUser])
  | .ok p =>
    let ai := standaloneAuthInput i p
    match u.Authentication ai with
    | .error e =>
        (.error (.wrap "authentication error" e),
         [.getCurrentAuthProvider i.KubeconfigFilename i.KubeconfigContext
            i.KubeconfigUser, .authenticate ai])
    | .ok out =>
      if out.AlreadyHasValidIDToken then
        (.ok (),
         [.getCurrentAuthProvider i.KubeconfigFilename i.KubeconfigContext
            i.KubeconfigUser, .authenticate ai])
      else
        let p2 : AuthProvider :=
          { p with IDToken := out.TokenSet.IDToken
                   RefreshToken := out.TokenSet.RefreshToken }
        match u.KubeconfigUpdateAuthProvider p2 with
        | .error e =>
            (.error (.wrap "could not update the kubeconfig" e),
             [.getCurrentAuthProvider i.KubeconfigFilename i.KubeconfigContext
                i.KubeconfigUser, .authenticate ai, .updateAuthProvider p2])
        | .ok _ =>
            (.ok (),
             [.getCurrentAuthProvider i.KubeconfigFilename i.KubeconfigContext
                i.KubeconfigUser, .authenticate ai, .updateAuthProvider p2])

/-- The UpdateAuthProvider calls of a Standalone trace. -/
def updateCalls (tr : List StandaloneEvent) : List StandaloneEvent :=
  tr.filter fun e =>
    match e with
    | .updateAuthProvider _ => true
    | _ => false

/-- Wrapping of a result's error with a stage message, as
`xerrors.Errorf("m: %w", err)` does on the error path. -/
def wrapErr (m : String) : Except GoError Unit → Except GoError Unit
  | .error e => .error (.wrap m e)
  | .ok _ => .ok ()

/- Concrete collaborator fixtures used by witnesses and counterexamples. -/

/-- A fresh token set returned by the delegate in the fixtures. -/
def tsFresh : TokenSet := { IDToken := "id-token", RefreshToken := "refresh-token" }

/-- A receiver on which every step succeeds and the delegate reports a
fresh token (the cache lookup misses, as in the LeastOptions test). -/
def uOk : GetToken :=
  { Authentication := fun _ => .ok { AlreadyHasValidIDToken := false, TokenSet := tsFresh }
    TokenCacheRepositoryFindByKey := fun _ _ => .error (.base "file not found")
    TokenCacheRepositorySave := fun _ _ _ => .ok ()
    Writer := fun _ => .ok ()
    MutexAcquire := fun _ => .ok { Data := "testData" }
    MutexRelease := fun _ => .ok ()
    DecodeWithoutVerify := fun _ => .ok { Expiry := 3600, Pretty := "claims" } }

/-- uOk, except that Mutex.Acquire fails. -/
def uAcqFail : GetToken :=
  { uOk with MutexAcquire := fun _ => .error (.base "lock busy") }

/-- uOk, except that the Authentication delegate fails. -/
def uAuthFail : GetToken :=
  { uOk with Authentication := fun _ => .error (.base "idp down") }

/-- uOk, except that decoding the (fresh) token fails. -/
def uDecodeFail : GetToken :=
  { uOk with DecodeWithoutVerify := fun _ => .error (.base "bad jwt") }

/-- uOk, except that the delegate reports a reused valid token whose
decoding fails. -/
def uReuseDecodeFail : GetToken :=
  { uOk with
      Authentication := fun _ => .ok { AlreadyHasValidIDToken := true, TokenSet := tsFresh }
      DecodeWithoutVerify := fun _ => .error (.base "bad jwt") }

/-- uOk, except that the cache lookup fails with a different error. -/
def uFindFailB : GetToken :=
  { uOk with TokenCacheRepositoryFindByKey := fun _ _ => .error (.base "corrupt cache") }

/-- A minimal input, analogous to the LeastOptions test. -/
def inPlain : Input :=
  { IssuerURL := "https://accounts.google.com"
    ClientID := "YOUR_CLIENT_ID"
    ClientSecret := ""
    ExtraScopes := []
    TokenCacheDir := "/path/to/token-cache"
    GrantOptionSet := { ROPCOption := none }
    TLSClientConfig := { CACertFilename := [], CACertData := [], SkipTLSVerify := false } }

/-- inPlain with extra scopes ["email", "groups"]. -/
def inScopesA : Input := { inPlain with ExtraScopes := ["email", "groups"] }

/-- inPlain with extra scopes ["groups", "email"]. -/
def inScopesB : Input := { inPlain with ExtraScopes := ["groups", "email"] }

/-- inPlain with the single CA file name "a,b" (a comma in the name). -/
def inJoinA : Input :=
  { inPlain with TLSClientConfig :=
      { CACertFilename := ["a,b"], CACertData := [], SkipTLSVerify := false } }

/-- inPlain with the two CA file names "a" and "b". -/
def inJoinB : Input :=
  { inPlain with TLSClientConfig :=
      { CACertFilename := ["a", "b"], CACertData := [], SkipTLSVerify := false } }

/-- A persisted provider entry with all fields populated except the
tokens (as in the FullOptions standalone test). -/
def pFull : AuthProvider :=
  { LocationOfOrigin := "/path/to/kubeconfig"
    UserName := "theUser"
    IDPIssuerURL := "https://accounts.google.com"
    ClientID := "YOUR_CLIENT_ID"
    ClientSecret := "YOUR_CLIENT_SECRET"
    IDPCertificateAuthority := "/path/to/cert2"
    IDPCertificateAuthorityData := "BASE64ENCODED2"
    IDToken := ""
    RefreshToken := "" }

/-- A Standalone receiver on which every step succeeds and the delegate
reports a fresh token. -/
def sOk : Standalone :=
  { Authentication := fun _ => .ok { AlreadyHasValidIDToken := false, TokenSet := tsFresh }
    KubeconfigGetCurrentAuthProvider := fun _ _ _ => .ok pFull
    KubeconfigUpdateAuthProvider := fun _ => .ok () }

/-- A standalone input naming a kubeconfig, context and user. -/
def inStandalone : StandaloneInput :=
  { KubeconfigFilename := "/path/to/kubeconfig"
    KubeconfigContext := "theContext"
    KubeconfigUser := "theUser"
    GrantOptionSet := { ROPCOption := none } }

/- Branch characterizations of GetToken.Do, one per exit path. -/

/-- When Mutex.Acquire fails, Do returns that error unchanged and the
trace holds the acquire call only. -/
theorem Do_acq_error (u : GetToken) (i : Input) (e : GoError)
    (h : u.MutexAcquire "get-token" = .error e) :
    GetToken.Do u i = (.error e, [.acquire "get-token"]) := by
  unfold GetToken.Do
  rw [h]

/-- When the delegate fails, Do returns the wrapped authentication error;
the trace is acquire, lookup, authenticate, release. -/
theorem Do_auth_error (u : GetToken) (i : Input) (lock : Lock) (e : GoError)
    (hacq : u.MutexAcquire "get-token" = .ok lock)
    (hauth : u.Authentication (authInputOf u i) = .error e) :
    GetToken.Do u i =
      (.error (.wrap "authentication error" e),
       [.acquire "get-token", .findByKey i.TokenCacheDir (deriveKey i),
        .authenticate (authInputOf u i), .release lock]) := by
  unfold GetToken.Do
  rw [hacq]
  simp only [hauth]

/-- When decoding the returned token fails, Do returns the wrapped decode
error; the trace is acquire, lookup, authenticate, decode, release. -/
theorem Do_decode_error (u : GetToken) (i : Input) (lock : Lock)
    (out : AuthOutput) (e : GoError)
    (hacq : u.MutexAcquire "get-token" = .ok lock)
    (hauth : u.Authentication (authInputOf u i) = .ok out)
    (hdec : u.DecodeWithoutVerify out.TokenSet = .error e) :
    GetToken.Do u i =
      (.error (.wrap "you got an invalid token" e),
       [.acquire "get-token", .findByKey i.TokenCacheDir (deriveKey i),
        .authenticate (authInputOf u i), .decodeToken out.TokenSet,
        .release lock]) := by
  unfold GetToken.Do
  rw [hacq]
  simp only [hauth, hdec]

/-- When the delegate reports a reused valid token and it decodes, Do
writes to the sink without saving; the result is the write result with a
sink-stage wrap on failure. -/
theorem Do_reuse (u : GetToken) (i : Input) (lock : Lock)
    (out : AuthOutput) (claims : Claims)
    (hacq : u.MutexAcquire "get-token" = .ok lock)
    (hauth : u.Authentication (authInputOf u i) = .ok out)
    (hdec : u.DecodeWithoutVerify out.TokenSet = .ok claims)
    (hb : out.AlreadyHasValidIDToken = true) :
    GetToken.Do u i =
      (wrapErr "could not write the token to client-go"
        (u.Writer { Token := out.TokenSet.IDToken, Expiry := claims.Expiry }),
       [.acquire "get-token", .findByKey i.TokenCacheDir (deriveKey i),
        .authenticate (authInputOf u i), .decodeToken out.TokenSet,
        .write { Token := out.TokenSet.IDToken, Expiry := claims.Expiry },
        .release lock]) := by
  unfold GetToken.Do
  rw [hacq]
  simp only [hauth, hdec, hb, if_true]
  cases hw : u.Writer { Token := out.TokenSet.IDToken, Expiry := claims.Expiry } with
  | error e => simp [wrapErr, hw]
  | ok v => simp [wrapErr, hw]

/-- When a fresh token was obtained, decodes, and the cache save fails,
Do returns the wrapped cache-write error and no sink write occurs. -/
theorem Do_fresh_save_error (u : GetToken) (i : Input) (lock : Lock)
    (out : AuthOutput) (claims : Claims) (e : GoError)
    (hacq : u.MutexAcquire "get-token" = .ok lock)
    (hauth : u.Authentication (authInputOf u i) = .ok out)
    (hdec : u.DecodeWithoutVerify out.TokenSet = .ok claims)
    (hb : out.AlreadyHasValidIDToken = false)
    (hs : u.TokenCacheRepositorySave i.TokenCacheDir (deriveKey i) out.TokenSet
        = .error e) :
    GetToken.Do u i =
      (.error (.wrap "could not write the token cache" e),
       [.acquire "get-token", .findByKey i.TokenCacheDir (deriveKey i),
        .authenticate (authInputOf u i), .decodeToken out.TokenSet,
        .save i.TokenCacheDir (deriveKey i) out.TokenSet,
        .release lock]) := by
  unfold GetToken.Do
  rw [hacq]
  simp only [hauth, hdec, hb, if_false, Bool.false_eq_true, hs]

/-- When a fresh token was obtained, decodes, and the cache save
succeeds, Do writes to the sink after the save; the result is the write
result with a sink-stage wrap on failure. -/
theorem Do_fresh_save_ok (u : GetToken) (i : Input) (lock : Lock)
    (out : AuthOutput) (claims : Claims)
    (hacq : u.MutexAcquire "get-token" = .ok lock)
    (hauth : u.Authentication (authInputOf u i) = .ok out)
    (hdec : u.DecodeWithoutVerify out.TokenSet = .ok claims)
    (hb : out.AlreadyHasValidIDToken = false)
    (hs : u.TokenCacheRepositorySave i.TokenCacheDir (deriveKey i) out.TokenSet
        = .ok ()) :
    GetToken.Do u i =
      (wrapErr "could not write the token to client-go"
        (u.Writer { Token := out.TokenSet.IDToken, Expiry := claims.Expiry }),
       [.acquire "get-token", .findByKey i.TokenCacheDir (deriveKey i),
        .authenticate (authInputOf u i), .decodeToken out.TokenSet,
        .save i.TokenCacheDir (deriveKey i) out.TokenSet,
        .write { Token := out.TokenSet.IDToken, Expiry := claims.Expiry },
        .release lock]) := by
  unfold GetToken.Do
  rw [hacq]
  simp only [hauth, hdec, hb, if_false, Bool.false_eq_true, hs]
  cases hw : u.Writer { Token := out.TokenSet.IDToken, Expiry := claims.Expiry } with
  | error e => simp [wrapErr, hw]
  | ok v => simp [wrapErr, hw]

/- Claim theorems. -/

/-- C1 (counterexample): the claim says that whenever the Authentication
delegate succeeds and reports a fresh token, Save is called.  On this
receiver the delegate succeeds with AlreadyHasValidIDToken = false, yet
no Save call occurs, because the token fails to decode first
(get_token.go line 97 precedes line 107). -/
theorem getToken_fresh_token_not_saved :
    uDecodeFail.Authentication (authInputOf uDecodeFail inPlain) =
      .ok { AlreadyHasValidIDToken := false, TokenSet := tsFresh } ∧
    saveCalls (GetToken.Do uDecodeFail inPlain).2 = [] :=
  ⟨rfl, rfl⟩

/-- C1 (amended): when the delegate succeeds and the returned token also
decodes, Save is called exactly once with the derived key and the
delegate's token set if the token is fresh, and not at all on reuse. -/
theorem getToken_save_iff_fresh (u : GetToken) (i : Input) (lock : Lock)
    (out : AuthOutput) (claims : Claims)
    (hacq : u.MutexAcquire "get-token" = .ok lock)
    (hauth : u.Authentication (authInputOf u i) = .ok out)
    (hdec : u.DecodeWithoutVerify out.TokenSet = .ok claims) :
    saveCalls (GetToken.Do u i).2 =
      if out.AlreadyHasValidIDToken then []
      else [.save i.TokenCacheDir (deriveKey i) out.TokenSet] := by
  cases hb : out.AlreadyHasValidIDToken with
  | true =>
    rw [Do_reuse u i lock out claims hacq hauth hdec hb]
    simp [saveCalls, Event.isSave]
  | false =>
    cases hs : u.TokenCacheRepositorySave i.TokenCacheDir (deriveKey i)
        out.TokenSet with
    | error e =>
      rw [Do_fresh_save_error u i lock out claims e hacq hauth hdec hb hs]
      simp [saveCalls, Event.isSave]
    | ok v =>
      cases v
      rw [Do_fresh_save_ok u i lock out claims hacq hauth hdec hb hs]
      simp [saveCalls, Event.isSave]

/-- C1 (witness): on the all-success fresh receiver, the one Save call
carries the derived key and the fresh token set. -/
theorem getToken_save_iff_fresh_witness :
    saveCalls (GetToken.Do uOk inPlain).2 =
      [.save inPlain.TokenCacheDir (deriveKey inPlain) tsFresh] :=
  getToken_save_iff_fresh uOk inPlain ⟨"testData"⟩ ⟨false, tsFresh⟩
    ⟨3600, "claims"⟩ rfl rfl rfl

/-- C2 (counterexample): two inputs equal in every field except that the
ExtraScopes list is permuted derive different token cache keys: the key
stores the scope list in caller order (get_token.go line 69). -/
theorem deriveKey_perm_dependent :
    List.Perm inScopesA.ExtraScopes inScopesB.ExtraScopes ∧
    inScopesA.IssuerURL = inScopesB.IssuerURL ∧
    inScopesA.ClientID = inScopesB.ClientID ∧
    inScopesA.ClientSecret = inScopesB.ClientSecret ∧
    inScopesA.TokenCacheDir = inScopesB.TokenCacheDir ∧
    inScopesA.GrantOptionSet = inScopesB.GrantOptionSet ∧
    inScopesA.TLSClientConfig = inScopesB.TLSClientConfig ∧
    deriveKey inScopesA ≠ deriveKey inScopesB := by
  decide

/-- C2 (amended): the derived key is determined by the scalar fields, the
ExtraScopes list in order, the comma-join of the CA file-name list and
the comma-join of the CA data list; in particular it is invariant under
any change of the CA lists that preserves their comma-joined strings,
but not under reordering in general. -/
theorem deriveKey_canonical (a b : Input)
    (h1 : a.IssuerURL = b.IssuerURL) (h2 : a.ClientID = b.ClientID)
    (h3 : a.ClientSecret = b.ClientSecret) (h4 : a.ExtraScopes = b.ExtraScopes)
    (h5 : a.GrantOptionSet = b.GrantOptionSet)
    (h6 : String.intercalate "," a.TLSClientConfig.CACertFilename =
          String.intercalate "," b.TLSClientConfig.CACertFilename)
    (h7 : String.intercalate "," a.TLSClientConfig.CACertData =
          String.intercalate "," b.TLSClientConfig.CACertData)
    (h8 : a.TLSClientConfig.SkipTLSVerify = b.TLSClientConfig.SkipTLSVerify) :
    deriveKey a = deriveKey b := by
  unfold deriveKey
  rw [h1, h2, h3, h4, h5, h6, h7, h8]

/-- C2 (witness): the CA lists ["a,b"] and ["a", "b"] have the same
comma-join, so the two inputs derive the same key. -/
theorem deriveKey_canonical_witness : deriveKey inJoinA = deriveKey inJoinB :=
  deriveKey_canonical inJoinA inJoinB rfl rfl rfl rfl rfl (by decide)
    (by decide) rfl

/-- C3 (counterexample): on the all-success fresh path the trace decodes
the token (index 3) strictly before the cache save (index 4), and the
guard release is the final event, after the sink write; the claim instead
places the save before the decode and the release before both. -/
theorem getToken_decode_precedes_save :
    (GetToken.Do uOk inPlain).2 =
      [.acquire "get-token", .findByKey inPlain.TokenCacheDir (deriveKey inPlain),
       .authenticate (authInputOf uOk inPlain), .decodeToken tsFresh,
       .save inPlain.TokenCacheDir (deriveKey inPlain) tsFresh,
       .write { Token := "id-token", Expiry := 3600 }, .release ⟨"testData"⟩] ∧
    (GetToken.Do uOk inPlain).2.findIdx Event.isDecode <
      (GetToken.Do uOk inPlain).2.findIdx Event.isSave := by
  decide

/-- C3 (amended): within one invocation on which every step succeeds and
the token is fresh, the steps run strictly in the order: guard
acquisition, cache lookup, authentication, token decoding, cache save,
sink write, and guard release last. -/
theorem getToken_trace_order (u : GetToken) (i : Input) (lock : Lock)
    (out : AuthOutput) (claims : Claims)
    (hacq : u.MutexAcquire "get-token" = .ok lock)
    (hauth : u.Authentication (authInputOf u i) = .ok out)
    (hdec : u.DecodeWithoutVerify out.TokenSet = .ok claims)
    (hfresh : out.AlreadyHasValidIDToken = false)
    (hsave : u.TokenCacheRepositorySave i.TokenCacheDir (deriveKey i)
        out.TokenSet = .ok ())
    (hwrite : u.Writer { Token := out.TokenSet.IDToken, Expiry := claims.Expiry }
        = .ok ()) :
    GetToken.Do u i =
      (.ok (),
       [.acquire "get-token", .findByKey i.TokenCacheDir (deriveKey i),
        .authenticate (authInputOf u i), .decodeToken out.TokenSet,
        .save i.TokenCacheDir (deriveKey i) out.TokenSet,
        .write { Token := out.TokenSet.IDToken, Expiry := claims.Expiry },
        .release lock]) := by
  rw [Do_fresh_save_ok u i lock out claims hacq hauth hdec hfresh hsave, hwrite]
  rfl

/-- C3 (witness): the amended order at the all-success fresh receiver. -/
theorem getToken_trace_order_witness :
    GetToken.Do uOk inPlain =
      (.ok (),
       [.acquire "get-token", .findByKey inPlain.TokenCacheDir (deriveKey inPlain),
        .authenticate (authInputOf uOk inPlain), .decodeToken tsFresh,
        .save inPlain.TokenCacheDir (deriveKey inPlain) tsFresh,
        .write { Token := tsFresh.IDToken, Expiry := 3600 },
        .release ⟨"testData"⟩]) :=
  getToken_trace_order uOk inPlain ⟨"testData"⟩ ⟨false, tsFresh⟩ ⟨3600, "claims"⟩
    rfl rfl rfl rfl rfl rfl

/-- C4: when Mutex.Acquire fails, Do returns that error immediately and
the trace holds the acquire attempt only: no cache lookup, no
authentication call, no cache save and no sink write occurred. -/
theorem getToken_acquire_error (u : GetToken) (i : Input) (e : GoError)
    (h : u.MutexAcquire "get-token" = .error e) :
    GetToken.Do u i = (.error e, [.acquire "get-token"]) :=
  Do_acq_error u i e h

/-- C4 (witness): the acquire-failure receiver at the minimal input. -/
theorem getToken_acquire_error_witness :
    GetToken.Do uAcqFail inPlain = (.error (.base "lock busy"), [.acquire "get-token"]) :=
  getToken_acquire_error uAcqFail inPlain (.base "lock busy") rfl

/-- C5: when the delegate fails after a successful acquisition, Do
returns the delegate's error wrapped as an authentication-stage error,
the trace holds no save and no write call, and the guard release is
still performed. -/
theorem getToken_auth_error_released (u : GetToken) (i : Input) (lock : Lock)
    (e : GoError)
    (hacq : u.MutexAcquire "get-token" = .ok lock)
    (hauth : u.Authentication (authInputOf u i) = .error e) :
    GetToken.Do u i =
      (.error (.wrap "authentication error" e),
       [.acquire "get-token", .findByKey i.TokenCacheDir (deriveKey i),
        .authenticate (authInputOf u i), .release lock]) :=
  Do_auth_error u i lock e hacq hauth

/-- C5 (witness): the delegate-failure receiver at the minimal input. -/
theorem getToken_auth_error_released_witness :
    GetToken.Do uAuthFail inPlain =
      (.error (.wrap "authentication error" (.base "idp down")),
       [.acquire "get-token", .findByKey inPlain.TokenCacheDir (deriveKey inPlain),
        .authenticate (authInputOf uAuthFail inPlain), .release ⟨"testData"⟩]) :=
  getToken_auth_error_released uAuthFail inPlain ⟨"testData"⟩ (.base "idp down")
    rfl rfl

/-- C6 (counterexample): the claim says every fatal error of Do,
including a guard-acquisition error, is wrapped with a stage-identifying
message.  A failed acquisition returns the collaborator's error with no
wrapping at all (get_token.go line 58). -/
theorem getToken_acquire_error_not_wrapped :
    (GetToken.Do uAcqFail inPlain).1 = .error (.base "lock busy") ∧
    (returnedError (GetToken.Do uAcqFail inPlain).1).map GoError.isWrapped =
      some false :=
  ⟨rfl, rfl⟩

/-- C6 (amended): every fatal error of Do is either the guard-acquisition
error returned unmodified, or is wrapped with the stage-identifying
message of the failing stage — "authentication error", "you got an
invalid token", "could not write the token cache", or "could not write
the token to client-go" — so the four wrapped stages (in particular the
cache-save stage and the authentication stage) remain distinguishable. -/
theorem getToken_error_stages (u : GetToken) (i : Input) (e : GoError)
    (h : (GetToken.Do u i).1 = .error e) :
    u.MutexAcquire "get-token" = .error e ∨
    (∃ e0, u.Authentication (authInputOf u i) = .error e0 ∧
       e = .wrap "authentication error" e0) ∨
    (∃ out e0, u.Authentication (authInputOf u i) = .ok out ∧
       u.DecodeWithoutVerify out.TokenSet = .error e0 ∧
       e = .wrap "you got an invalid token" e0) ∨
    (∃ out e0, u.Authentication (authInputOf u i) = .ok out ∧
       u.TokenCacheRepositorySave i.TokenCacheDir (deriveKey i) out.TokenSet
         = .error e0 ∧
       e = .wrap "could not write the token cache" e0) ∨
    (∃ e0, e = .wrap "could not write the token to client-go" e0) := by
  cases hacq : u.MutexAcquire "get-token" with
  | error e1 =>
    rw [Do_acq_error u i e1 hacq] at h
    simp only [Except.error.injEq] at h
    subst h
    exact Or.inl rfl
  | ok lock =>
    cases hauth : u.Authentication (authInputOf u i) with
    | error e1 =>
      rw [Do_auth_error u i lock e1 hacq hauth] at h
      simp only [Except.error.injEq] at h
      subst h
      exact Or.inr (Or.inl ⟨e1, rfl, rfl⟩)
    | ok out =>
      cases hdec : u.DecodeWithoutVerify out.TokenSet with
      | error e1 =>
        rw [Do_decode_error u i lock out e1 hacq hauth hdec] at h
        simp only [Except.error.injEq] at h
        subst h
        exact Or.inr (Or.inr (Or.inl ⟨out, e1, rfl, hdec, rfl⟩))
      | ok claims =>
        cases hb : out.AlreadyHasValidIDToken with
        | true =>
          rw [Do_reuse u i lock out claims hacq hauth hdec hb] at h
          cases hw : u.Writer { Token := out.TokenSet.IDToken, Expiry := claims.Expiry } with
          | error e1 =>
            rw [hw] at h
            simp only [wrapErr, Except.error.injEq] at h
            subst h
            exact Or.inr (Or.inr (Or.inr (Or.inr ⟨e1, rfl⟩)))
          | ok v =>
            rw [hw] at h
            simp [wrapErr] at h
        | false =>
          cases hs : u.TokenCacheRepositorySave i.TokenCacheDir (deriveKey i)
              out.TokenSet with
          | error e1 =>
            rw [Do_fresh_save_error u i lock out claims e1 hacq hauth hdec hb hs] at h
            simp only [Except.error.injEq] at h
            subst h
            exact Or.inr (Or.inr (Or.inr (Or.inl ⟨out, e1, rfl, hs, rfl⟩)))
          | ok v =>
            cases v
            rw [Do_fresh_save_ok u i lock out claims hacq hauth hdec hb hs] at h
            cases hw : u.Writer { Token := out.TokenSet.IDToken, Expiry := claims.Expiry } with
            | error e1 =>
              rw [hw] at h
              simp only [wrapErr, Except.error.injEq] at h
              subst h
              exact Or.inr (Or.inr (Or.inr (Or.inr ⟨e1, rfl⟩)))
            | ok v2 =>
              rw [hw] at h
              simp [wrapErr] at h

/-- C6 (witness): the delegate-failure receiver yields an error of the
authentication stage. -/
theorem getToken_error_stages_witness :
    uAuthFail.MutexAcquire "get-token" =
      .error (.wrap "authentication error" (.base "idp down")) ∨
    (∃ e0, uAuthFail.Authentication (authInputOf uAuthFail inPlain) = .error e0 ∧
       GoError.wrap "authentication error" (.base "idp down") =
         .wrap "authentication error" e0) ∨
    (∃ out e0, uAuthFail.Authentication (authInputOf uAuthFail inPlain) = .ok out ∧
       uAuthFail.DecodeWithoutVerify out.TokenSet = .error e0 ∧
       GoError.wrap "authentication error" (.base "idp down") =
         .wrap "you got an invalid token" e0) ∨
    (∃ out e0, uAuthFail.Authentication (authInputOf uAuthFail inPlain) = .ok out ∧
       uAuthFail.TokenCacheRepositorySave inPlain.TokenCacheDir (deriveKey inPlain)
           out.TokenSet = .error e0 ∧
       GoError.wrap "authentication error" (.base "idp down") =
         .wrap "could not write the token cache" e0) ∨
    (∃ e0, GoError.wrap "authentication error" (.base "idp down") =
       .wrap "could not write the token to client-go" e0) :=
  getToken_error_stages uAuthFail inPlain
    (.wrap "authentication error" (.base "idp down")) rfl

/-- C7: a cache-lookup failure is not surfaced: the delegate is invoked
with no cached token as reuse candidate, and the whole invocation
(result and trace) is identical to one on a receiver whose lookup fails
with any other error, i.e. exactly as if the cache had been empty. -/
theorem getToken_lookup_error_degrades (u v : GetToken) (i : Input)
    (e e1 : GoError)
    (hfind : u.TokenCacheRepositoryFindByKey i.TokenCacheDir (deriveKey i)
        = .error e)
    (hfind1 : v.TokenCacheRepositoryFindByKey i.TokenCacheDir (deriveKey i)
        = .error e1)
    (ha : v.MutexAcquire = u.MutexAcquire)
    (hau : v.Authentication = u.Authentication)
    (hd : v.DecodeWithoutVerify = u.DecodeWithoutVerify)
    (hs : v.TokenCacheRepositorySave = u.TokenCacheRepositorySave)
    (hw : v.Writer = u.Writer)
    (hr : v.MutexRelease = u.MutexRelease) :
    (authInputOf u i).CachedTokenSet = none ∧
    GetToken.Do u i = GetToken.Do v i := by
  have hc : cachedOf u i = none := by unfold cachedOf; rw [hfind]
  have hc1 : cachedOf v i = none := by unfold cachedOf; rw [hfind1]
  have hai : authInputOf v i = authInputOf u i := by
    unfold authInputOf
    rw [hc, hc1]
  refine ⟨hc, ?_⟩
  unfold GetToken.Do
  rw [ha, hau, hd, hs, hw, hai]

/-- C7 (witness): two receivers whose lookups fail with different errors
("file not found" and "corrupt cache") produce identical invocations,
and the delegate sees no cached token. -/
theorem getToken_lookup_error_degrades_witness :
    (authInputOf uOk inPlain).CachedTokenSet = none ∧
    GetToken.Do uOk inPlain = GetToken.Do uFindFailB inPlain :=
  getToken_lookup_error_degrades uOk uFindFailB inPlain
    (.base "file not found") (.base "corrupt cache")
    rfl rfl rfl rfl rfl rfl rfl rfl

/-- C9: the cache key derivation is not injective on the TLS lists: the
inputs with CACertFilename ["a,b"] and ["a", "b"] are distinct yet they
derive the same token cache key, because the list is joined with an
unescaped comma (get_token.go line 70). -/
theorem deriveKey_comma_collision :
    inJoinA ≠ inJoinB ∧ deriveKey inJoinA = deriveKey inJoinB := by
  decide

/-- C10: when the delegate succeeds reporting a reused valid token whose
ID token nevertheless fails structural decoding, Do returns the wrapped
decode error and the sink write never occurs. -/
theorem getToken_reused_invalid_token (u : GetToken) (i : Input) (lock : Lock)
    (out : AuthOutput) (e : GoError)
    (hacq : u.MutexAcquire "get-token" = .ok lock)
    (hauth : u.Authentication (authInputOf u i) = .ok out)
    (hreuse : out.AlreadyHasValidIDToken = true)
    (hdec : u.DecodeWithoutVerify out.TokenSet = .error e) :
    (GetToken.Do u i).1 = .error (.wrap "you got an invalid token" e) ∧
    writeCalls (GetToken.Do u i).2 = [] := by
  rw [Do_decode_error u i lock out e hacq hauth hdec]
  exact ⟨rfl, rfl⟩

/-- C10 (witness): the reuse-then-bad-decode receiver at the minimal
input. -/
theorem getToken_reused_invalid_token_witness :
    (GetToken.Do uReuseDecodeFail inPlain).1 =
      .error (.wrap "you got an invalid token" (.base "bad jwt")) ∧
    writeCalls (GetToken.Do uReuseDecodeFail inPlain).2 = [] :=
  getToken_reused_invalid_token uReuseDecodeFail inPlain ⟨"testData"⟩
    ⟨true, tsFresh⟩ (.base "bad jwt") rfl rfl rfl rfl

/-- C8: in configuration mode, when the delegate reports a fresh token
the entry is written back exactly once, with only the ID-token and
refresh-token fields changed and every other field round-tripped from
the entry that was read; when the delegate reports reuse, no write-back
occurs. -/
theorem standalone_update_frame (u : Standalone) (i : StandaloneInput)
    (p : AuthProvider) (out : AuthOutput)
    (hget : u.KubeconfigGetCurrentAuthProvider i.KubeconfigFilename
        i.KubeconfigContext i.KubeconfigUser = .ok p)
    (hauth : u.Authentication (standaloneAuthInput i p) = .ok out) :
    (out.AlreadyHasValidIDToken = true →
       updateCalls (Standalone.Do u i).2 = []) ∧
    (out.AlreadyHasValidIDToken = false →
       updateCalls (Standalone.Do u i).2 =
         [.updateAuthProvider
            { p with IDToken := out.TokenSet.IDToken
                     RefreshToken := out.TokenSet.RefreshToken }]) := by
  constructor
  · intro hb
    unfold Standalone.Do
    rw [hget]
    simp only [hauth, hb, if_true]
    rfl
  · intro hb
    unfold Standalone.Do
    rw [hget]
    simp only [hauth, hb, Bool.false_eq_true, if_false]
    cases hu : u.KubeconfigUpdateAuthProvider
        { p with IDToken := out.TokenSet.IDToken
                 RefreshToken := out.TokenSet.RefreshToken } with
    | error e => rfl
    | ok v => rfl

/-- C8 (witness): on the all-success fresh standalone receiver, the one
write-back carries pFull with only the token fields replaced. -/
theorem standalone_update_frame_witness :
    updateCalls (Standalone.Do sOk inStandalone).2 =
      [.updateAuthProvider
         { pFull with IDToken := tsFresh.IDToken
                      RefreshToken := tsFresh.RefreshToken }] :=
  (standalone_update_frame sOk inStandalone pFull ⟨false, tsFresh⟩ rfl rfl).2 rfl
